import Mathlib

/-!
Verification of the conversation-state and orchestration logic of
`cortex_analyst_sis_demo_app.py` (a Streamlit front-end for the Cortex
Analyst API).

Python dictionaries are modelled as association lists of `Json` values;
`d[k]` is `Json.get?` (where `none` models a `KeyError` being raised) and
`"k" in d` is `(Json.get? d k).isSome`.  Functions that can raise return
`Option`; `none` models an uncaught exception.  The HTTP collaborator
`_snowflake.send_snow_api_request` is modelled by passing in the simulated
response (status code plus the JSON-parsed body).  Streamlit widget state
and drawing are abstracted to the lists of displayed texts; `st.session_state`
is the explicit `SessionState` record threaded through every operation.
-/

/-- JSON values, as produced by `json.loads` on a response body. -/
inductive Json where
  | null : Json
  | bool : Bool → Json
  | num : Int → Json
  | str : String → Json
  | arr : List Json → Json
  | obj : List (String × Json) → Json

/-- Dictionary lookup `d[k]`: `none` models a Python `KeyError`
(or indexing a non-dict value). -/
def Json.get? : Json → String → Option Json
  | Json.obj fields, k => fields.lookup k
  | _, _ => none

mutual

/-- Python `str()` as used when a value is interpolated into an f-string.
Exact for the scalar values that actually occur in response envelopes;
container values are rendered structurally. -/
def Json.pyStr : Json → String
  | Json.null => "None"
  | Json.bool b => cond b "True" "False"
  | Json.num n => toString n
  | Json.str s => s
  | Json.arr xs => "[" ++ Json.pyStrList xs ++ "]"
  | Json.obj fs => "\x7b" ++ Json.pyStrFields fs ++ "\x7d"

/-- Comma-separated rendering of list elements. -/
def Json.pyStrList : List Json → String
  | [] => ""
  | [x] => Json.pyStr x
  | x :: xs => Json.pyStr x ++ ", " ++ Json.pyStrList xs

/-- Comma-separated rendering of object fields. -/
def Json.pyStrFields : List (String × Json) → String
  | [] => ""
  | [(k, v)] => k ++ ": " ++ Json.pyStr v
  | (k, v) :: fs => k ++ ": " ++ Json.pyStr v ++ ", " ++ Json.pyStrFields fs

end

/-- Python truthiness of a JSON value (used by `if request_id:`). -/
def Json.truthy : Json → Bool
  | Json.null => false
  | Json.bool b => b
  | Json.num n => n != 0
  | Json.str s => s != ""
  | Json.arr xs => !xs.isEmpty
  | Json.obj fs => !fs.isEmpty

/-- `s` contains `pat` as a substring. -/
def ContainsStr (s pat : String) : Prop := ∃ a b : String, s = a ++ (pat ++ b)

/-- A simulated HTTP response: the status code and the JSON-parsed body
(`json.loads(resp["content"])`). -/
structure HttpResp where
  status : Nat
  body : Json

/-- One conversation turn, as appended to `st.session_state.messages`.
`request_id := none` models the key being absent (user and system turns). -/
structure Turn where
  role : String
  content : Json
  request_id : Option Json

/-- Outcome of one feedback submission, stored in
`st.session_state.form_submitted[request_id]`. -/
structure FeedbackRecord where
  error : Option String
deriving DecidableEq

/-- The mutable `st.session_state` fields the app uses. -/
structure SessionState where
  messages : List Turn
  active_suggestion : Option String
  warnings : List Json
  form_submitted : List (String × FeedbackRecord)
  fire_API_error_notify : Bool

/-- `reset_session_state`: clears messages, active suggestion, warnings and
the feedback map (the error-notify flag is not touched by the source). -/
def reset_session_state (s : SessionState) : SessionState :=
  { s with
    messages := []
    active_suggestion := none
    warnings := []
    form_submitted := [] }

/-- A `text` content block. -/
def mkTextBlock (t : String) : Json :=
  Json.obj [("type", Json.str "text"), ("text", Json.str t)]

/-- The user turn appended by `process_user_input`. -/
def mkUserTurn (prompt : String) : Turn :=
  { role := "user", content := Json.arr [mkTextBlock prompt], request_id := none }

/-- Error string crafted by `create_relevant_graph_tables` for a status ≥ 400
(the f-string at lines 277–288 of the source). -/
def modelCreationErrorMsg (status : Nat) (rid ec msg : String) : String :=
  "\n🚨 A model creation error has occurred 🚨\n\n* response code: `" ++
    (toString status ++
      ("`\n* request-id: `" ++
        (rid ++
          ("`\n* error code: `" ++
            (ec ++ ("`\n\nMessage:\n```\n" ++ (msg ++ "\n```\n        ")))))))

/-- Error string crafted by `get_analyst_response` for a status ≥ 400. -/
def analystApiErrorMsg (status : Nat) (rid ec msg : String) : String :=
  "\n🚨 An Analyst API error has occurred 🚨\n\n* response code: `" ++
    (toString status ++
      ("`\n* request-id: `" ++
        (rid ++
          ("`\n* error code: `" ++
            (ec ++ ("`\n\nMessage:\n```\n" ++ (msg ++ "\n```\n        ")))))))

/-- Error string crafted by `submit_feedback` for a status ≠ 200
(same template, indented differently in the source). -/
def feedbackApiErrorMsg (status : Nat) (rid ec msg : String) : String :=
  "\n        🚨 An Analyst API error has occurred 🚨\n        \n        * response code: `" ++
    (toString status ++
      ("`\n        * request-id: `" ++
        (rid ++
          ("`\n        * error code: `" ++
            (ec ++
              ("`\n        \n        Message:\n        ```\n        " ++
                (msg ++ "\n        ```\n        ")))))))

/-- `create_relevant_graph_tables(messages)`: posts the transcript to the
inference:complete endpoint (the POST itself is the simulated `resp`) and
classifies the response.  Status < 400 returns `(parsed_content, None)`;
otherwise the error f-string reads `request_id`, `error_code` and `message`
out of the body, raising `KeyError` (`none`) when one is absent. -/
def create_relevant_graph_tables (messages : List Turn) (resp : HttpResp) :
    Option (Json × Option String) :=
  let _ := messages
  let parsed_content := resp.body
  if resp.status < 400 then
    some (parsed_content, none)
  else
    match parsed_content.get? "request_id", parsed_content.get? "error_code",
        parsed_content.get? "message" with
    | some rid, some ec, some msg =>
        some (parsed_content,
          some (modelCreationErrorMsg resp.status rid.pyStr ec.pyStr msg.pyStr))
    | _, _, _ => none

/-- `get_analyst_response(messages)`: same contract against the analyst
message endpoint, with the semantic-model path in the request body. -/
def get_analyst_response (messages : List Turn) (selected_semantic_model_path : String)
    (resp : HttpResp) : Option (Json × Option String) :=
  let _ := messages
  let _ := selected_semantic_model_path
  let parsed_content := resp.body
  if resp.status < 400 then
    some (parsed_content, none)
  else
    match parsed_content.get? "request_id", parsed_content.get? "error_code",
        parsed_content.get? "message" with
    | some rid, some ec, some msg =>
        some (parsed_content,
          some (analystApiErrorMsg resp.status rid.pyStr ec.pyStr msg.pyStr))
    | _, _, _ => none

/-- The `if "warnings" in response1: st.session_state.warnings.extend(...)`
step.  A present non-list value cannot be `extend`ed into the list and is
modelled as an error. -/
def mergeWarnings (warnings : List Json) (response : Json) : Option (List Json) :=
  match response.get? "warnings" with
  | none => some warnings
  | some (Json.arr ws) => some (warnings ++ ws)
  | some _ => none

/-- `process_user_input(prompt)`: clears the warning list, appends the user
turn, runs `create_relevant_graph_tables` on the updated transcript
(response simulated by `resp`), builds the analyst turn (content from the
envelope on success, a single text block with the error string on failure;
`request_id` read from the envelope with plain indexing), sets the one-shot
error-notify flag on failure, extends the warning list, and appends the
analyst turn.  `none` models an uncaught exception during the cycle. -/
def process_user_input (s : SessionState) (prompt : String) (resp : HttpResp) :
    Option SessionState :=
  let s1 : SessionState := { s with warnings := [] }
  let new_user_message := mkUserTurn prompt
  let s2 : SessionState := { s1 with messages := s1.messages ++ [new_user_message] }
  match create_relevant_graph_tables s2.messages resp with
  | none => none
  | some (response1, error_msg1) =>
    let analyst_content : Option Json :=
      match error_msg1 with
      | none =>
        match response1.get? "message" with
        | some m => m.get? "content"
        | none => none
      | some e => some (Json.arr [mkTextBlock e])
    match analyst_content with
    | none => none
    | some ac =>
      match response1.get? "request_id" with
      | none => none
      | some rid =>
        let analyst_message1 : Turn := { role := "analyst", content := ac, request_id := some rid }
        let s3 : SessionState :=
          if error_msg1.isSome then { s2 with fire_API_error_notify := true } else s2
        match mergeWarnings s3.warnings response1 with
        | none => none
        | some ws =>
          some { s3 with warnings := ws, messages := s3.messages ++ [analyst_message1] }

/-- Runs `process_user_input` for each accepted input in turn, with the
simulated response paired to it. -/
def runCycles (s : SessionState) : List (String × HttpResp) → Option SessionState
  | [] => some s
  | (p, r) :: rest =>
    match process_user_input s p r with
    | none => none
    | some s2 => runCycles s2 rest
/-- The fixed system setup prompt appended as the first transcript turn
(apostrophes and quotes escaped; text otherwise as in the source). -/
def setup_message : String :=
  "
    You are an expert Neo4j Graph Analytics for Snowflake SQL generator. Your task is to interpret user requests for graph analysis and generate a single, complete SQL query.

    **Key Guidelines and Constraints:**

    1.  **Output Format:** Your response MUST be a valid SQL query for Neo4j Graph Analytics for Snowflake. Do not include any conversational text, explanations, or code blocks other than the SQL query itself.
    2.  **Algorithm Selection:**
        * Choose the most appropriate graph algorithm from the available list: `BETWEENNESS_CENTRALITY`, `DEGREE_CENTRALITY`, `DIJKSTRA_SINGLE_SOURCE_SHORTEST_PATH`, `DIJKSTRA_SOURCE_TARGET_SHORTEST_PATH`, `FASTRP`, `FASTPATH`, `GRAPHSAGE`, `K_NEAREST_NEIGHBORS`, `LOUVAIN`, `NODE_CLASSIFICATION_TRAINING`, `NODE_CLASSIFICATION_PREDICTION`, `NODE_EMBEDDINGS_TRAINING`, `NODE_EMBEDDINGS_PREDICTION`, `NODE_SIMILARITY`, `PAGERANK`, `TRIANGLE_COUNT`, `WEAKLY_CONNECTED_COMPONENTS`.
        * Prioritize algorithms that directly address community detection, centrality, pathfinding, or embeddings based on the user\x27s intent.
    3.  **SQL Structure:** The SQL query will adhere to the following pattern for calling Neo4j Graph Analytics:

        ```sql
        CALL NEO4J_GRAPH_ANALYTICS.ADMIN.RUN_JOB(
            \x27YOUR_APP_NAME\x27,
            \x27<ALGORITHM_NAME>\x27,
            OBJECT_CONSTRUCT(
                \x27node_table\x27, \x27YOUR_NODES_TABLE\x27,
                \x27relationship_table\x27, \x27YOUR_RELATIONSHIPS_TABLE\x27,
                \x27output_table\x27, \x27YOUR_OUTPUT_TABLE\x27
                -- Add algorithm-specific parameters here, e.g., \x27source_node_id\x27, \x27target_node_id\x27, \x27weight_property\x27, \x27iterations\x27, \x27embedding_size\x27, etc.
            )
        );
        ```
        * `YOUR_APP_NAME` should always be `NEO4J_GRAPH_ANALYTICS`.
        * `<ALGORITHM_NAME>` must be one of the exact algorithm names listed in guideline 2, enclosed in single quotes.
        * `YOUR_NODES_TABLE` and `YOUR_RELATIONSHIPS_TABLE` will be identified from the provided semantic context. These should be fully qualified (e.g., `DATABASE.SCHEMA.TABLE_NAME`).
        * `YOUR_OUTPUT_TABLE` should be a new, descriptive table name in the format `APP_SCHEMA.ALGORITHM_OUTPUT_<TIMESTAMP_OR_DESCRIPTIVE_SUFFIX>`. For example, `GRAPH_APP_RESULTS.LOUVAIN_COMMUNITIES_202506041621`. Ensure the output table name is distinct and descriptive.
        * You MUST infer and include any necessary algorithm-specific parameters within the `OBJECT_CONSTRUCT` based on the user\x27s request and the semantic context. Common parameters include:
            * `source_node_id` (for shortest path, typically a column from the nodes table)
            * `target_node_id` (for shortest path, typically a column from the nodes table)
            * `weight_property` (for weighted algorithms, typically a numeric column from the relationships table)
            * `iterations` (for iterative algorithms like PageRank)
            * `embedding_size` (for embedding algorithms)
            * `label_property` (for node classification)
            * `relationship_type_property` (if relationships have types)
            * `node_id_property` (if node IDs are not the primary key)
            * `source_node_property` (for relationship table mapping, e.g., \x27FROM_NODE_ID\x27)
            * `target_node_property` (for relationship table mapping, e.g., \x27TO_NODE_ID\x27)
    4.  **Semantic Context Usage:** The user will provide a \"semantic file\" containing metadata about available tables and their relationships. You MUST parse this context to:
        * Identify appropriate node and relationship tables for the requested analysis.
        * Infer column names for node IDs, relationship source/target, and any properties (like weights) needed by the chosen algorithm.
        * **Crucially, only use tables and columns explicitly defined in the semantic context.** If a suitable table or column is not found for a requested analysis, indicate that the request cannot be fulfilled with the current data schema.
    5.  **Error Handling (Implicit):** If a user\x27s request cannot be translated into a valid Neo4j Graph Analytics SQL query given the available algorithms and semantic context, output a clear message indicating why the query cannot be generated and what information is missing. For example: \"Error: Cannot generate SQL. The request for [ALGORITHM] requires a [PROPERTY/TABLE] that is not defined in the provided semantic context.\"

    **Semantic File Format Expectation (for LLM to parse):**

    The semantic file will be provided in a JSON-like format within the user\x27s prompt. It will describe databases, schemas, tables, columns, and their inferred roles (e.g., `node_table`, `relationship_table`, `node_id`, `relationship_source_id`, `relationship_target_id`, `properties`).
"

/-- The system turn appended by `main` on a fresh (or just-reset) session. -/
def mkSystemTurn : Turn :=
  { role := "system", content := Json.arr [mkTextBlock setup_message], request_id := none }

/-- The session state right after `reset_session_state` first runs
(`fire_API_error_notify` absent reads as falsy via `st.session_state.get`). -/
def fresh_session : SessionState :=
  { messages := []
    active_suggestion := none
    warnings := []
    form_submitted := []
    fire_API_error_notify := false }

/-- The initialization part of `main` (lines 88–95): on an empty transcript,
append the system turn with the setup prompt and run one orchestration cycle
on the synthetic input "What questions can I ask?"; otherwise do nothing. -/
def main_init (s : SessionState) (resp : HttpResp) : Option SessionState :=
  if s.messages.length = 0 then
    let s1 : SessionState :=
      { s with messages := s.messages ++ [mkSystemTurn] }
    process_user_input s1 "What questions can I ask?" resp
  else
    some s

/-- A pandas DataFrame as far as the renderer inspects it: its column names
and whether it is empty. -/
structure Df where
  columns : List String
  empty : Bool

/-- `display_charts_tab`: with at least two columns it offers the X/Y/type
selectors and draws the chosen chart, otherwise it shows a notice.  Widget
interaction is abstracted; the emitted notices are kept. -/
def display_charts_tab (df : Df) : List String :=
  if 2 ≤ df.columns.length then
    ["X axis", "Y axis", "Select chart type"]
  else
    ["At least 2 columns are required"]

/-- `display_sql_confidence(confidence)`: returns immediately on `None`;
otherwise reads `confidence["verified_query_used"]` with plain indexing
(`none` models the `KeyError` when the entry is absent), shows a notice when
that value is `None`, and otherwise shows the five fields (each read with
plain indexing; timestamp formatting abstracted to the raw value). -/
def display_sql_confidence (confidence : Json) : Option (List String) :=
  match confidence with
  | Json.null => some []
  | _ =>
    match confidence.get? "verified_query_used" with
    | none => none
    | some Json.null =>
      some ["There is no query from the Verified Query Repository used to generate this SQL answer"]
    | some vq =>
      match vq.get? "name", vq.get? "question", vq.get? "verified_by",
          vq.get? "verified_at", vq.get? "sql" with
      | some n, some q, some vb, some va, some sq =>
        some ["Name: " ++ n.pyStr, "Question: " ++ q.pyStr, "Verified by: " ++ vb.pyStr,
          "Verified at: " ++ va.pyStr, "SQL query:", sq.pyStr]
      | _, _, _, _, _ => none

/-- `display_sql_query(sql, message_index, confidence, request_id)`: shows
the statement and the confidence panel, runs the (cached, external) query
collaborator `exec` as `get_query_exec_result`, and renders the error /
no-data / data-and-charts outcome; a truthy `request_id` additionally gets
the feedback popover. -/
def display_sql_query (exec : String → Option Df × Option String) (sql : String)
    (message_index : Nat) (confidence : Json) (request_id : Option Json) :
    Option (List String) :=
  let _ := message_index
  match display_sql_confidence confidence with
  | none => none
  | some confLines =>
    let resLines : List String :=
      match exec sql with
      | (none, err_msg) =>
        ["Could not execute generated SQL query. Error: " ++
          (match err_msg with | some e => e | none => "None")]
      | (some df, _) =>
        if df.empty then ["Query returned no data"] else display_charts_tab df
    let feedbackLines : List String :=
      match request_id with
      | some rid => if rid.truthy then ["📝 Query Feedback"] else []
      | none => []
    some (sql :: (confLines ++ resLines ++ feedbackLines))

/-- `display_message(content, message_index, request_id)`: renders each
content block by its `type` tag.  `text` shows `item["text"]`;
`suggestions` offers one button per entry; `sql` hands `item["statement"]`
and `item["confidence"]` (both plain indexing) to `display_sql_query`;
unknown types are skipped.  `none` models a `KeyError` on a missing
required key. -/
def display_message (exec : String → Option Df × Option String)
    (content : List Json) (message_index : Nat) (request_id : Option Json) :
    Option (List String) :=
  match content with
  | [] => some []
  | item :: rest =>
    let this : Option (List String) :=
      match item.get? "type" with
      | none => none
      | some (Json.str "text") =>
        match item.get? "text" with
        | some t => some [t.pyStr]
        | none => none
      | some (Json.str "suggestions") =>
        match item.get? "suggestions" with
        | some (Json.arr ss) => some (ss.map Json.pyStr)
        | some _ => none
        | none => none
      | some (Json.str "sql") =>
        match item.get? "statement", item.get? "confidence" with
        | some st, some conf =>
          display_sql_query exec st.pyStr message_index conf request_id
        | _, _ => none
      | some _ => some []
    match this, display_message exec rest message_index request_id with
    | some l1, some l2 => some (l1 ++ l2)
    | _, _ => none

/-- `submit_feedback(request_id, positive, feedback_message)`: posts to the
feedback endpoint (simulated by `resp`).  Exact status 200 returns `None`
without even parsing the body; any other status parses the body and crafts
the error string, raising `KeyError` (`none`) when a field is absent. -/
def submit_feedback (request_id : String) (positive : Bool) (feedback_message : String)
    (resp : HttpResp) : Option (Option String) :=
  let _ := request_id
  let _ := positive
  let _ := feedback_message
  if resp.status = 200 then
    some none
  else
    match resp.body.get? "request_id", resp.body.get? "error_code",
        resp.body.get? "message" with
    | some rid, some ec, some msg =>
      some (some (feedbackApiErrorMsg resp.status rid.pyStr ec.pyStr msg.pyStr))
    | _, _, _ => none

/-- What one pass over `display_feedback_section` did. -/
structure FeedbackOutcome where
  form_submitted : List (String × FeedbackRecord)
  control_offered : Bool
  network_calls : Nat
  banner : Option (Option String)

/-- `display_feedback_section(request_id)`: when no record exists for the id
the form is offered and, if the user submitted it this pass, the feedback is
posted once and the outcome recorded; when a record exists, only a success
or error banner is shown (`banner = some rec_error`), the form is not
rendered and no call is made. -/
def display_feedback_section (form_submitted : List (String × FeedbackRecord))
    (request_id : String) (submitted : Bool) (positive : Bool)
    (feedback_message : String) (resp : HttpResp) : Option FeedbackOutcome :=
  match form_submitted.lookup request_id with
  | none =>
    if submitted then
      match submit_feedback request_id positive feedback_message resp with
      | none => none
      | some err_msg =>
        some { form_submitted := (request_id, { error := err_msg }) :: form_submitted
               control_offered := true
               network_calls := 1
               banner := none }
    else
      some { form_submitted := form_submitted
             control_offered := true
             network_calls := 0
             banner := none }
  | some r =>
    some { form_submitted := form_submitted
           control_offered := false
           network_calls := 0
           banner := some r.error }

/-! ## Helper lemmas -/

/-- On a status < 400, `create_relevant_graph_tables` returns the parsed body
with no error. -/
theorem create_relevant_graph_tables_ok (m : List Turn) (resp : HttpResp)
    (hst : resp.status < 400) :
    create_relevant_graph_tables m resp = some (resp.body, none) := by
  simp [create_relevant_graph_tables, hst]

/-- On a status ≥ 400 with the three error fields present,
`create_relevant_graph_tables` returns the crafted error string. -/
theorem create_relevant_graph_tables_err (m : List Turn) (resp : HttpResp)
    (hst : ¬ resp.status < 400) (r e msg : Json)
    (hr : resp.body.get? "request_id" = some r)
    (he : resp.body.get? "error_code" = some e)
    (hm : resp.body.get? "message" = some msg) :
    create_relevant_graph_tables m resp =
      some (resp.body,
        some (modelCreationErrorMsg resp.status r.pyStr e.pyStr msg.pyStr)) := by
  simp [create_relevant_graph_tables, hst, hr, he, hm]

/-- Every completed orchestration cycle appends exactly the user turn and one
analyst turn to the transcript. -/
theorem process_user_input_shape (s : SessionState) (p : String) (resp : HttpResp)
    (s' : SessionState) (h : process_user_input s p resp = some s') :
    ∃ a : Turn, a.role = "analyst" ∧
      s'.messages = s.messages ++ [mkUserTurn p, a] := by
  unfold process_user_input at h
  dsimp only at h
  split at h
  · exact absurd h (by simp)
  next response1 error_msg1 heq =>
    split at h
    · exact absurd h (by simp)
    next ac hac =>
      split at h
      · exact absurd h (by simp)
      next rid hrid =>
        split at h
        · exact absurd h (by simp)
        next ws hws =>
          refine ⟨{ role := "analyst", content := ac, request_id := some rid }, rfl, ?_⟩
          cases h
          cases hE : error_msg1.isSome <;> simp [hE]

/-- Full characterization of a completed orchestration cycle: the two turns
appended, the analyst turn's request id and content on success and on
failure, the warning list, and the error-notify flag. -/
theorem process_user_input_characterization (s : SessionState) (p : String)
    (resp : HttpResp) (s' : SessionState)
    (h : process_user_input s p resp = some s') :
    ∃ (a : Turn) (rid : Json) (ws : List Json),
      s'.messages = s.messages ++ [mkUserTurn p, a] ∧
      a.role = "analyst" ∧
      resp.body.get? "request_id" = some rid ∧
      a.request_id = some rid ∧
      mergeWarnings [] resp.body = some ws ∧
      s'.warnings = ws ∧
      (resp.status < 400 →
        (∃ m, resp.body.get? "message" = some m ∧ m.get? "content" = some a.content) ∧
        s'.fire_API_error_notify = s.fire_API_error_notify) ∧
      (¬ resp.status < 400 →
        ∃ e msg, resp.body.get? "error_code" = some e ∧
          resp.body.get? "message" = some msg ∧
          a.content = Json.arr [mkTextBlock
            (modelCreationErrorMsg resp.status rid.pyStr e.pyStr msg.pyStr)] ∧
          s'.fire_API_error_notify = true) := by
  unfold process_user_input at h
  dsimp only at h
  split at h
  · exact absurd h (by simp)
  next response1 error_msg1 heq =>
    by_cases hst : resp.status < 400
    · rw [create_relevant_graph_tables_ok _ _ hst] at heq
      simp only [Option.some.injEq, Prod.mk.injEq] at heq
      obtain ⟨hb, he⟩ := heq
      subst hb
      subst he
      dsimp only at h
      split at h
      · exact absurd h (by simp)
      next ac hac =>
        split at h
        · exact absurd h (by simp)
        next rid hrid =>
          dsimp only [Option.isSome] at h
          split at h
          · exact absurd h (by simp)
          next ws hws =>
            cases h
            refine ⟨{ role := "analyst", content := ac, request_id := some rid }, rid, ws,
              by simp, rfl, hrid, rfl, hws, rfl, fun _ => ⟨?_, rfl⟩,
              fun hc => absurd hst hc⟩
            split at hac
            next m hm => exact ⟨m, hm, hac⟩
            next hm => exact absurd hac (by simp)
    · unfold create_relevant_graph_tables at heq
      dsimp only at heq
      rw [if_neg hst] at heq
      split at heq
      next r e msg hr hec hmsg =>
        simp only [Option.some.injEq, Prod.mk.injEq] at heq
        obtain ⟨hb, he⟩ := heq
        subst hb
        subst he
        dsimp only at h
        split at h
        · exact absurd h (by simp)
        next rid hrid =>
          dsimp only [Option.isSome] at h
          split at h
          · exact absurd h (by simp)
          next ws hws =>
            cases h
            have hrr : rid = r := Option.some.inj (hrid.symm.trans hr)
            subst hrr
            exact ⟨⟨"analyst", Json.arr [mkTextBlock (modelCreationErrorMsg resp.status rid.pyStr e.pyStr msg.pyStr)], some rid⟩,
              rid, ws, by simp, rfl, hrid, rfl, hws, rfl,
              fun hc => absurd hc hst,
              fun _ => ⟨e, msg, hec, hmsg, rfl, rfl⟩⟩
      next =>
        exact absurd heq (by simp)

/-- Substring containment is preserved by prepending. -/
theorem containsStr_appendl (s t p : String) (h : ContainsStr t p) :
    ContainsStr (s ++ t) p := by
  obtain ⟨a, b, hh⟩ := h
  exact ⟨s ++ a, b, by rw [hh, String.append_assoc]⟩

/-- A string contains its own head part. -/
theorem containsStr_head (p b : String) : ContainsStr (p ++ b) p :=
  ⟨"", b, (String.empty_append (p ++ b)).symm⟩

/-- The model-creation error string contains the status, request id, error
code and message interpolated into it. -/
theorem modelCreationErrorMsg_contains (st : Nat) (r e m : String) :
    ContainsStr (modelCreationErrorMsg st r e m) (toString st) ∧
    ContainsStr (modelCreationErrorMsg st r e m) r ∧
    ContainsStr (modelCreationErrorMsg st r e m) e ∧
    ContainsStr (modelCreationErrorMsg st r e m) m :=
  ⟨containsStr_appendl _ _ _ (containsStr_head _ _),
   containsStr_appendl _ _ _ (containsStr_appendl _ _ _
     (containsStr_appendl _ _ _ (containsStr_head _ _))),
   containsStr_appendl _ _ _ (containsStr_appendl _ _ _ (containsStr_appendl _ _ _
     (containsStr_appendl _ _ _ (containsStr_appendl _ _ _ (containsStr_head _ _))))),
   containsStr_appendl _ _ _ (containsStr_appendl _ _ _ (containsStr_appendl _ _ _
     (containsStr_appendl _ _ _ (containsStr_appendl _ _ _ (containsStr_appendl _ _ _
       (containsStr_appendl _ _ _ (containsStr_head _ _)))))))⟩

/-- The analyst-API error string contains the status, request id, error code
and message interpolated into it. -/
theorem analystApiErrorMsg_contains (st : Nat) (r e m : String) :
    ContainsStr (analystApiErrorMsg st r e m) (toString st) ∧
    ContainsStr (analystApiErrorMsg st r e m) r ∧
    ContainsStr (analystApiErrorMsg st r e m) e ∧
    ContainsStr (analystApiErrorMsg st r e m) m :=
  ⟨containsStr_appendl _ _ _ (containsStr_head _ _),
   containsStr_appendl _ _ _ (containsStr_appendl _ _ _
     (containsStr_appendl _ _ _ (containsStr_head _ _))),
   containsStr_appendl _ _ _ (containsStr_appendl _ _ _ (containsStr_appendl _ _ _
     (containsStr_appendl _ _ _ (containsStr_appendl _ _ _ (containsStr_head _ _))))),
   containsStr_appendl _ _ _ (containsStr_appendl _ _ _ (containsStr_appendl _ _ _
     (containsStr_appendl _ _ _ (containsStr_appendl _ _ _ (containsStr_appendl _ _ _
       (containsStr_appendl _ _ _ (containsStr_head _ _)))))))⟩

/-- The feedback error string contains the status, request id, error code
and message interpolated into it. -/
theorem feedbackApiErrorMsg_contains (st : Nat) (r e m : String) :
    ContainsStr (feedbackApiErrorMsg st r e m) (toString st) ∧
    ContainsStr (feedbackApiErrorMsg st r e m) r ∧
    ContainsStr (feedbackApiErrorMsg st r e m) e ∧
    ContainsStr (feedbackApiErrorMsg st r e m) m :=
  ⟨containsStr_appendl _ _ _ (containsStr_head _ _),
   containsStr_appendl _ _ _ (containsStr_appendl _ _ _
     (containsStr_appendl _ _ _ (containsStr_head _ _))),
   containsStr_appendl _ _ _ (containsStr_appendl _ _ _ (containsStr_appendl _ _ _
     (containsStr_appendl _ _ _ (containsStr_appendl _ _ _ (containsStr_head _ _))))),
   containsStr_appendl _ _ _ (containsStr_appendl _ _ _ (containsStr_appendl _ _ _
     (containsStr_appendl _ _ _ (containsStr_appendl _ _ _ (containsStr_appendl _ _ _
       (containsStr_appendl _ _ _ (containsStr_head _ _)))))))⟩

/-- On a status ≥ 400 with the three error fields present,
`get_analyst_response` returns the crafted error string. -/
theorem get_analyst_response_err (m : List Turn) (path : String) (resp : HttpResp)
    (hst : ¬ resp.status < 400) (r e msg : Json)
    (hr : resp.body.get? "request_id" = some r)
    (he : resp.body.get? "error_code" = some e)
    (hm : resp.body.get? "message" = some msg) :
    get_analyst_response m path resp =
      some (resp.body,
        some (analystApiErrorMsg resp.status r.pyStr e.pyStr msg.pyStr)) := by
  simp [get_analyst_response, hst, hr, he, hm]

/-- A simulated 200 response carrying one text block "hi" and request id
"r2". -/
def respHi : HttpResp :=
  ⟨200, Json.obj [("message", Json.obj [("content", Json.arr [mkTextBlock "hi"])]),
    ("request_id", Json.str "r2")]⟩

/-- A simulated 500 response with the standard error body. -/
def resp500 : HttpResp :=
  ⟨500, Json.obj [("request_id", Json.str "r1"), ("error_code", Json.str "E1"),
    ("message", Json.str "bad")]⟩

/-- A simulated 500 error response whose body lacks `request_id`. -/
def respNoRid : HttpResp :=
  ⟨500, Json.obj [("error_code", Json.str "E1"), ("message", Json.str "bad")]⟩

/-- The session state after processing "q" against `respHi` from a fresh
session. -/
def sHi : SessionState :=
  { messages := [mkUserTurn "q", ⟨"analyst", Json.arr [mkTextBlock "hi"], some (Json.str "r2")⟩]
    active_suggestion := none
    warnings := []
    form_submitted := []
    fire_API_error_notify := false }

/-- C1: every completed orchestration cycle appends an analyst turn whose
content is the envelope's message content blocks on success and a single
text block holding the error string on failure, whose request id is the
envelope's request id in both cases; the error-notification flag is set
exactly on the error path and left untouched on success. -/
theorem analyst_turn_construction (s : SessionState) (p : String) (resp : HttpResp)
    (s' : SessionState) (h : process_user_input s p resp = some s') :
    ∃ (a : Turn) (rid : Json),
      s'.messages = s.messages ++ [mkUserTurn p, a] ∧
      a.role = "analyst" ∧
      resp.body.get? "request_id" = some rid ∧
      a.request_id = some rid ∧
      (resp.status < 400 →
        (∃ m, resp.body.get? "message" = some m ∧ m.get? "content" = some a.content) ∧
        s'.fire_API_error_notify = s.fire_API_error_notify) ∧
      (¬ resp.status < 400 →
        ∃ e msg, resp.body.get? "error_code" = some e ∧
          resp.body.get? "message" = some msg ∧
          a.content = Json.arr [mkTextBlock
            (modelCreationErrorMsg resp.status rid.pyStr e.pyStr msg.pyStr)] ∧
          s'.fire_API_error_notify = true) := by
  obtain ⟨a, rid, ws, h1, h2, h3, h4, _, _, h7, h8⟩ :=
    process_user_input_characterization s p resp s' h
  exact ⟨a, rid, h1, h2, h3, h4, h7, h8⟩

/-- Witness for C1 at the simulated 200 response with content
`[text "hi"]` and request id "r2": the appended analyst turn is exactly
`⟨analyst, [text "hi"], "r2"⟩` and the error flag stays unset. -/
theorem analyst_turn_construction_witness :
    (∃ (a : Turn) (rid : Json),
      sHi.messages = fresh_session.messages ++ [mkUserTurn "q", a] ∧
      a.role = "analyst" ∧
      respHi.body.get? "request_id" = some rid ∧
      a.request_id = some rid ∧
      (respHi.status < 400 →
        (∃ m, respHi.body.get? "message" = some m ∧ m.get? "content" = some a.content) ∧
        sHi.fire_API_error_notify = fresh_session.fire_API_error_notify) ∧
      (¬ respHi.status < 400 →
        ∃ e msg, respHi.body.get? "error_code" = some e ∧
          respHi.body.get? "message" = some msg ∧
          a.content = Json.arr [mkTextBlock
            (modelCreationErrorMsg respHi.status rid.pyStr e.pyStr msg.pyStr)] ∧
          sHi.fire_API_error_notify = true)) ∧
    sHi.messages = [mkUserTurn "q",
      ⟨"analyst", Json.arr [mkTextBlock "hi"], some (Json.str "r2")⟩] ∧
    sHi.fire_API_error_notify = false :=
  ⟨analyst_turn_construction fresh_session "q" respHi sHi rfl, rfl, rfl⟩

/-- C2: given a response body carrying `request_id`, `error_code` and
`message`, both remote-client calls return the parsed envelope, paired on a
status ≥ 400 with an error string containing the status and those three
fields, and on a status < 400 with no error; neither call raises. -/
theorem client_error_classification (m : List Turn) (path : String) (resp : HttpResp)
    (r e msg : Json)
    (hr : resp.body.get? "request_id" = some r)
    (he : resp.body.get? "error_code" = some e)
    (hm : resp.body.get? "message" = some msg) :
    (400 ≤ resp.status →
      (∃ es, create_relevant_graph_tables m resp = some (resp.body, some es) ∧
        ContainsStr es (toString resp.status) ∧ ContainsStr es r.pyStr ∧
        ContainsStr es e.pyStr ∧ ContainsStr es msg.pyStr) ∧
      (∃ es, get_analyst_response m path resp = some (resp.body, some es) ∧
        ContainsStr es (toString resp.status) ∧ ContainsStr es r.pyStr ∧
        ContainsStr es e.pyStr ∧ ContainsStr es msg.pyStr)) ∧
    (resp.status < 400 →
      create_relevant_graph_tables m resp = some (resp.body, none) ∧
      get_analyst_response m path resp = some (resp.body, none)) := by
  constructor
  · intro hge
    have hst : ¬ resp.status < 400 := by omega
    obtain ⟨c1, c2, c3, c4⟩ :=
      modelCreationErrorMsg_contains resp.status r.pyStr e.pyStr msg.pyStr
    obtain ⟨d1, d2, d3, d4⟩ :=
      analystApiErrorMsg_contains resp.status r.pyStr e.pyStr msg.pyStr
    exact ⟨⟨_, create_relevant_graph_tables_err m resp hst r e msg hr he hm, c1, c2, c3, c4⟩,
      ⟨_, get_analyst_response_err m path resp hst r e msg hr he hm, d1, d2, d3, d4⟩⟩
  · intro hlt
    refine ⟨create_relevant_graph_tables_ok m resp hlt, ?_⟩
    simp [get_analyst_response, hlt]

/-- Witness for C2 at the simulated 500 response with body
`(request_id r1, error_code E1, message bad)`. -/
theorem client_error_classification_witness :
    (∃ es, create_relevant_graph_tables [] resp500 = some (resp500.body, some es) ∧
      ContainsStr es (toString resp500.status) ∧ ContainsStr es (Json.str "r1").pyStr ∧
      ContainsStr es (Json.str "E1").pyStr ∧ ContainsStr es (Json.str "bad").pyStr) ∧
    (∃ es, get_analyst_response [] "model.yaml" resp500 = some (resp500.body, some es) ∧
      ContainsStr es (toString resp500.status) ∧ ContainsStr es (Json.str "r1").pyStr ∧
      ContainsStr es (Json.str "E1").pyStr ∧ ContainsStr es (Json.str "bad").pyStr) :=
  (client_error_classification [] "model.yaml" resp500
    (Json.str "r1") (Json.str "E1") (Json.str "bad") rfl rfl rfl).1 (by decide)

/-- C9: `reset_session_state` always leaves an empty transcript, an empty
warning list, an empty feedback map and no active suggestion. -/
theorem reset_clears_session (s : SessionState) :
    (reset_session_state s).messages = [] ∧
    (reset_session_state s).warnings = [] ∧
    (reset_session_state s).form_submitted = [] ∧
    (reset_session_state s).active_suggestion = none :=
  ⟨rfl, rfl, rfl, rfl⟩

/-- Witness for C9 on a non-trivial prior state. -/
theorem reset_clears_session_witness :
    (reset_session_state sHi).messages = [] ∧
    (reset_session_state sHi).warnings = [] ∧
    (reset_session_state sHi).form_submitted = [] ∧
    (reset_session_state sHi).active_suggestion = none :=
  reset_clears_session sHi

/-- The role pattern of `n` successful user/analyst exchange pairs. -/
def rolePairs : Nat → List String
  | 0 => []
  | n + 1 => "user" :: "analyst" :: rolePairs n

/-- `rolePairs n` has length `2 * n`. -/
theorem rolePairs_length (n : Nat) : (rolePairs n).length = 2 * n := by
  induction n with
  | zero => rfl
  | succ k ih => simp [rolePairs, ih]; omega

/-- A completed run of orchestration cycles only appends to the transcript,
and appends one user/analyst pair per accepted input. -/
theorem runCycles_spec (inputs : List (String × HttpResp)) (s s' : SessionState)
    (h : runCycles s inputs = some s') :
    s'.messages.map Turn.role = s.messages.map Turn.role ++ rolePairs inputs.length ∧
    ∃ t, s'.messages = s.messages ++ t := by
  induction inputs generalizing s with
  | nil =>
    cases h
    exact ⟨by simp [rolePairs], [], by simp⟩
  | cons pr rest ih =>
    obtain ⟨p, r⟩ := pr
    unfold runCycles at h
    split at h
    · exact absurd h (by simp)
    next s2 hstep =>
      obtain ⟨a, hrole, hmsg⟩ := process_user_input_shape s p r s2 hstep
      obtain ⟨ihmap, t, iht⟩ := ih s2 h
      constructor
      · rw [ihmap, hmsg]
        simp [mkUserTurn, hrole, rolePairs]
      · exact ⟨[mkUserTurn p, a] ++ t, by rw [iht, hmsg]; simp⟩

/-- C3: starting from a transcript holding only the system turn, a run of N
accepted inputs leaves exactly 1 + 2N turns — the system turn first,
followed by N user/analyst pairs — and the transcript only ever grows by
appending, so existing turns keep their indices. -/
theorem transcript_append_only (s : SessionState) (inputs : List (String × HttpResp))
    (s' : SessionState) (t0 : Turn) (h : runCycles s inputs = some s')
    (h0 : s.messages = [t0]) (hrole : t0.role = "system") :
    s'.messages.length = 1 + 2 * inputs.length ∧
    s'.messages.head? = some t0 ∧
    s'.messages.map Turn.role = "system" :: rolePairs inputs.length ∧
    ∃ t, s'.messages = s.messages ++ t := by
  obtain ⟨hmap, t, ht⟩ := runCycles_spec inputs s s' h
  refine ⟨?_, ?_, ?_, t, ht⟩
  · have h2 := congrArg List.length hmap
    simp [h0, rolePairs_length] at h2
    omega
  · rw [ht, h0]
    rfl
  · rw [hmap, h0]
    simp [hrole]

/-- The session whose transcript holds only the system setup turn. -/
def sSys : SessionState :=
  { fresh_session with messages := [mkSystemTurn] }

/-- `sSys` after one successful cycle on input "q" answered by `respHi`. -/
def sSysAfter : SessionState :=
  { messages := [mkSystemTurn, mkUserTurn "q",
      ⟨"analyst", Json.arr [mkTextBlock "hi"], some (Json.str "r2")⟩]
    active_suggestion := none
    warnings := []
    form_submitted := []
    fire_API_error_notify := false }

/-- Witness for C3: one accepted input on top of the system turn gives
length 3 = 1 + 2·1 with the system turn still first. -/
theorem transcript_append_only_witness :
    sSysAfter.messages.length = 1 + 2 * [("q", respHi)].length ∧
    sSysAfter.messages.head? = some mkSystemTurn ∧
    sSysAfter.messages.map Turn.role = "system" :: rolePairs [("q", respHi)].length ∧
    ∃ t, sSysAfter.messages = sSys.messages ++ t :=
  transcript_append_only sSys [("q", respHi)] sSysAfter mkSystemTurn rfl rfl rfl

/-- C4: the warning list is reset at the start of every cycle — the list
left by a completed cycle is the merge of the envelope's warnings into the
empty list, whatever the previous list was — and each envelope's warnings
entries are appended (extend), so two successive merges accumulate both
lists in order. -/
theorem warning_accumulation (s : SessionState) (p : String) (resp : HttpResp)
    (s' : SessionState) (w : List Json) (b : Json) (entries : List Json) :
    (process_user_input s p resp = some s' →
      ∃ ws, mergeWarnings [] resp.body = some ws ∧ s'.warnings = ws) ∧
    (b.get? "warnings" = some (Json.arr entries) →
      mergeWarnings w b = some (w ++ entries)) := by
  constructor
  · intro h
    obtain ⟨_, _, ws, _, _, _, _, h5, h6, _, _⟩ :=
      process_user_input_characterization s p resp s' h
    exact ⟨ws, h5, h6⟩
  · intro hw
    simp [mergeWarnings, hw]

/-- A response body carrying exactly one warning `message: a`. -/
def bodyWarnA : Json :=
  Json.obj [("warnings", Json.arr [Json.obj [("message", Json.str "a")]])]

/-- A response body carrying exactly one warning `message: b`. -/
def bodyWarnB : Json :=
  Json.obj [("warnings", Json.arr [Json.obj [("message", Json.str "b")]])]

/-- Witness for C4: merging warnings `[a]` then `[b]` into the cleared list
yields exactly `[a, b]`. -/
theorem warning_accumulation_witness :
    mergeWarnings [] bodyWarnA = some ([] ++ [Json.obj [("message", Json.str "a")]]) ∧
    mergeWarnings ([] ++ [Json.obj [("message", Json.str "a")]]) bodyWarnB =
      some (([] ++ [Json.obj [("message", Json.str "a")]]) ++
        [Json.obj [("message", Json.str "b")]]) :=
  ⟨(warning_accumulation fresh_session "q" respHi fresh_session []
      bodyWarnA [Json.obj [("message", Json.str "a")]]).2 rfl,
   (warning_accumulation fresh_session "q" respHi fresh_session
      ([] ++ [Json.obj [("message", Json.str "a")]])
      bodyWarnB [Json.obj [("message", Json.str "b")]]).2 rfl⟩

/-- Counterexample for C5: on a failed call whose error envelope has no
`request_id` field, the cycle does not build and append an analyst turn — it
raises (`none`), contradicting the claim that building succeeds. -/
theorem error_turn_request_id_counterexample :
    process_user_input fresh_session "q" respNoRid = none := rfl

/-- C5 (amended): the analyst turn built from a failed call carries the
request id the error envelope supplied when one is present; when the error
envelope has no `request_id` field, the cycle raises a `KeyError` instead of
appending a turn. -/
theorem error_turn_request_id (s : SessionState) (p : String) (resp : HttpResp)
    (hst : ¬ resp.status < 400) :
    (∀ s', process_user_input s p resp = some s' →
      ∃ a rid, s'.messages = s.messages ++ [mkUserTurn p, a] ∧
        resp.body.get? "request_id" = some rid ∧ a.request_id = some rid) ∧
    (resp.body.get? "request_id" = none → process_user_input s p resp = none) := by
  constructor
  · intro s' h
    obtain ⟨a, rid, _, h1, _, h3, h4, _, _, _, _⟩ :=
      process_user_input_characterization s p resp s' h
    exact ⟨a, rid, h1, h3, h4⟩
  · intro hrid
    have hc : create_relevant_graph_tables (s.messages ++ [mkUserTurn p]) resp = none := by
      simp [create_relevant_graph_tables, hst, hrid]
    unfold process_user_input
    dsimp only
    rw [hc]

/-- The session state after processing "q" against `resp500` from a fresh
session: the analyst turn holds the error text and the envelope's id "r1". -/
def sErr : SessionState :=
  { messages := [mkUserTurn "q",
      ⟨"analyst", Json.arr [mkTextBlock (modelCreationErrorMsg 500 "r1" "E1" "bad")],
        some (Json.str "r1")⟩]
    active_suggestion := none
    warnings := []
    form_submitted := []
    fire_API_error_notify := true }

/-- Witness for C5: with `resp500` the turn carries "r1"; with the same
envelope minus `request_id` the cycle raises. -/
theorem error_turn_request_id_witness :
    (∃ a rid, sErr.messages = fresh_session.messages ++ [mkUserTurn "q", a] ∧
      resp500.body.get? "request_id" = some rid ∧ a.request_id = some rid) ∧
    process_user_input fresh_session "q" respNoRid = none :=
  ⟨(error_turn_request_id fresh_session "q" resp500 (by decide)).1 sErr rfl,
   (error_turn_request_id fresh_session "q" respNoRid (by decide)).2 rfl⟩

/-- A query collaborator returning a two-column non-empty table. -/
def execAB : String → Option Df × Option String :=
  fun _ => (some ⟨["A", "B"], false⟩, none)

/-- Counterexample for C6: rendering a `sql` block whose `confidence` key is
absent fails with a `KeyError` (`none`) instead of degrading gracefully. -/
theorem optional_fields_counterexample :
    display_message execAB
      [Json.obj [("type", Json.str "sql"), ("statement", Json.str "SELECT 1")]]
      0 none = none := rfl

/-- C6 (amended): a missing `warnings` list, a `confidence` of `None`, and a
`verified_query_used` of `None` all degrade gracefully; but a `sql` block
lacking the `confidence` key, or a non-`None` confidence dict lacking the
`verified_query_used` entry, raises a `KeyError` and fails the render. -/
theorem optional_fields_degradation (w : List Json) (b : Json)
    (exec : String → Option Df × Option String) (sql : String) (idx : Nat)
    (rid : Option Json) (conf : Json) (item : Json) :
    (b.get? "warnings" = none → mergeWarnings w b = some w) ∧
    (∃ out, display_sql_query exec sql idx Json.null rid = some out) ∧
    display_sql_confidence (Json.obj [("verified_query_used", Json.null)]) =
      some ["There is no query from the Verified Query Repository used to generate this SQL answer"] ∧
    (conf ≠ Json.null → conf.get? "verified_query_used" = none →
      display_sql_confidence conf = none) ∧
    (item.get? "type" = some (Json.str "sql") → item.get? "confidence" = none →
      display_message exec [item] idx rid = none) := by
  refine ⟨fun hw => by simp [mergeWarnings, hw], ⟨_, rfl⟩, rfl, ?_, ?_⟩
  · intro hne hvq
    unfold display_sql_confidence
    cases conf with
    | null => exact absurd rfl hne
    | bool bb => simp_all [Json.get?]
    | num nn => simp_all [Json.get?]
    | str ss => simp_all [Json.get?]
    | arr xs => simp_all [Json.get?]
    | obj fs => rw [hvq]
  · intro htype hconf
    unfold display_message
    rw [htype]
    dsimp only
    cases hst : item.get? "statement" <;> simp [hconf]

/-- A key that occurs among the map's keys has a successful lookup. -/
theorem lookup_isSome_of_mem_keys (form : List (String × FeedbackRecord)) (k : String)
    (hmem : k ∈ form.map Prod.fst) : (List.lookup k form).isSome := by
  induction form with
  | nil => simp at hmem
  | cons p rest ih =>
    obtain ⟨a, b⟩ := p
    simp only [List.map_cons, List.mem_cons] at hmem
    cases hmem with
    | inl hh =>
      subst hh
      simp [List.lookup]
    | inr hh =>
      cases ha : k == a with
      | true => simp [List.lookup, ha]
      | false => simpa [List.lookup, ha] using ih hh

/-- C7: once a feedback record exists for a request id, the submission
control is no longer offered, a further pass changes nothing and makes no
network call, the banner reflects the stored record, and the map keeps at
most one record per request id. -/
theorem feedback_one_shot (form : List (String × FeedbackRecord)) (request_id : String)
    (submitted positive : Bool) (fm : String) (resp : HttpResp) (out : FeedbackOutcome)
    (h : display_feedback_section form request_id submitted positive fm resp = some out) :
    (∀ r, form.lookup request_id = some r →
      out.control_offered = false ∧ out.form_submitted = form ∧
      out.network_calls = 0 ∧ out.banner = some r.error ∧
      out.form_submitted.lookup request_id = some r) ∧
    ((form.map Prod.fst).Nodup → (out.form_submitted.map Prod.fst).Nodup) := by
  unfold display_feedback_section at h
  split at h
  next hnone =>
    constructor
    · intro r hr
      rw [hnone] at hr
      exact absurd hr (by simp)
    · intro hnd
      split at h
      · split at h
        · exact absurd h (by simp)
        next err heq =>
          cases h
          simp only [List.map_cons, List.nodup_cons]
          refine ⟨fun hmem => ?_, hnd⟩
          have := lookup_isSome_of_mem_keys form request_id hmem
          rw [hnone] at this
          exact absurd this (by simp)
      · cases h
        exact hnd
  next r0 hsome =>
    cases h
    constructor
    · intro r hr
      rw [hsome] at hr
      cases hr
      exact ⟨rfl, rfl, rfl, rfl, hsome⟩
    · intro hnd
      exact hnd

/-- A feedback map holding one accepted record for "r2". -/
def formR2 : List (String × FeedbackRecord) := [("r2", ⟨none⟩)]

/-- Witness for C7: with a record already stored for "r2", a second pass
with the submit flag set offers no control, changes nothing and makes no
call. -/
theorem feedback_one_shot_witness :
    (⟨formR2, false, 0, some none⟩ : FeedbackOutcome).control_offered = false ∧
    (⟨formR2, false, 0, some none⟩ : FeedbackOutcome).form_submitted = formR2 ∧
    (⟨formR2, false, 0, some none⟩ : FeedbackOutcome).network_calls = 0 ∧
    (⟨formR2, false, 0, some none⟩ : FeedbackOutcome).banner =
      some (⟨none⟩ : FeedbackRecord).error ∧
    (⟨formR2, false, 0, some none⟩ : FeedbackOutcome).form_submitted.lookup "r2" =
      some (⟨none⟩ : FeedbackRecord) :=
  (feedback_one_shot formR2 "r2" true true "" resp500
    ⟨formR2, false, 0, some none⟩ rfl).1 ⟨none⟩ rfl

/-- C8: `submit_feedback` succeeds (returns `None`) exactly on status 200;
on any other status — including 2xx/3xx statuses other than 200 — it
returns the crafted error string containing the status, request id, error
code and message. -/
theorem submit_feedback_status (request_id : String) (positive : Bool) (fm : String)
    (resp : HttpResp) (r e m : Json)
    (hr : resp.body.get? "request_id" = some r)
    (he : resp.body.get? "error_code" = some e)
    (hm : resp.body.get? "message" = some m) :
    (submit_feedback request_id positive fm resp = some none ↔ resp.status = 200) ∧
    (resp.status ≠ 200 →
      ∃ es, submit_feedback request_id positive fm resp = some (some es) ∧
        ContainsStr es (toString resp.status) ∧ ContainsStr es r.pyStr ∧
        ContainsStr es e.pyStr ∧ ContainsStr es m.pyStr) := by
  by_cases h200 : resp.status = 200
  · refine ⟨⟨fun _ => h200, fun _ => by simp [submit_feedback, h200]⟩, fun hc => absurd h200 hc⟩
  · have hv : submit_feedback request_id positive fm resp =
        some (some (feedbackApiErrorMsg resp.status r.pyStr e.pyStr m.pyStr)) := by
      simp [submit_feedback, h200, hr, he, hm]
    obtain ⟨c1, c2, c3, c4⟩ :=
      feedbackApiErrorMsg_contains resp.status r.pyStr e.pyStr m.pyStr
    refine ⟨⟨fun hh => ?_, fun hh => absurd hh h200⟩, fun _ => ⟨_, hv, c1, c2, c3, c4⟩⟩
    rw [hv] at hh
    exact absurd (Option.some.inj hh) (by simp)

/-- A simulated 204 response (2xx but not 200) with the standard error
body. -/
def resp204 : HttpResp := ⟨204, resp500.body⟩

/-- Witness for C8 at status 204: strictly between 200 and 400, yet treated
as an error with the full formatted string. -/
theorem submit_feedback_status_witness :
    ∃ es, submit_feedback "r1" true "" resp204 = some (some es) ∧
      ContainsStr es (toString resp204.status) ∧ ContainsStr es (Json.str "r1").pyStr ∧
      ContainsStr es (Json.str "E1").pyStr ∧ ContainsStr es (Json.str "bad").pyStr :=
  (submit_feedback_status "r1" true "" resp204
    (Json.str "r1") (Json.str "E1") (Json.str "bad") rfl rfl rfl).2 (by decide)

/-- C10: on a fresh or just-reset session, `main` first appends the system
turn holding the setup prompt and then runs one full cycle on the synthetic
input "What questions can I ask?", so a completed bootstrap leaves a
non-empty transcript whose first turn is the system turn followed by one
user/analyst pair the user never typed. -/
theorem fresh_session_bootstrap (s : SessionState) (resp : HttpResp)
    (s' : SessionState) (h0 : s.messages = [])
    (h : main_init s resp = some s') :
    s'.messages ≠ [] ∧
    s'.messages.head? = some mkSystemTurn ∧
    ∃ a, a.role = "analyst" ∧
      s'.messages = [mkSystemTurn, mkUserTurn "What questions can I ask?", a] := by
  unfold main_init at h
  rw [h0] at h
  split at h
  · obtain ⟨a, hrole, hmsg⟩ := process_user_input_shape _ _ resp s' h
    have hm : s'.messages = [mkSystemTurn, mkUserTurn "What questions can I ask?", a] := by
      rw [hmsg]
      simp
    exact ⟨by rw [hm]; simp, by rw [hm]; rfl, a, hrole, hm⟩
  next hF => exact absurd (rfl : ([] : List Turn).length = 0) hF

/-- The session state after bootstrapping a fresh session against
`respHi`. -/
def sBoot : SessionState :=
  { messages := [mkSystemTurn, mkUserTurn "What questions can I ask?",
      ⟨"analyst", Json.arr [mkTextBlock "hi"], some (Json.str "r2")⟩]
    active_suggestion := none
    warnings := []
    form_submitted := []
    fire_API_error_notify := false }

/-- Witness for C10 at a concrete successful bootstrap response. -/
theorem fresh_session_bootstrap_witness :
    sBoot.messages ≠ [] ∧
    sBoot.messages.head? = some mkSystemTurn ∧
    ∃ a, a.role = "analyst" ∧
      sBoot.messages = [mkSystemTurn, mkUserTurn "What questions can I ask?", a] :=
  fresh_session_bootstrap fresh_session respHi sBoot rfl rfl

/-- Witness for the amended C6 at concrete inputs: no warnings key merges
fine, a `None` confidence renders, a keyless confidence dict raises, and a
`sql` block without the confidence key fails the render. -/
theorem optional_fields_degradation_witness :
    mergeWarnings [] (Json.obj []) = some [] ∧
    (∃ out, display_sql_query execAB "SELECT 1" 0 Json.null none = some out) ∧
    display_sql_confidence (Json.obj []) = none ∧
    display_message execAB
      [Json.obj [("type", Json.str "sql"), ("statement", Json.str "SELECT 1")]]
      0 none = none := by
  have T := optional_fields_degradation [] (Json.obj []) execAB "SELECT 1" 0 none
    (Json.obj [])
    (Json.obj [("type", Json.str "sql"), ("statement", Json.str "SELECT 1")])
  exact ⟨T.1 rfl, T.2.1, T.2.2.2.1 (fun hh => Json.noConfusion hh) rfl, T.2.2.2.2 rfl rfl⟩
